import Mathlib

/-!
Shallow embedding of the map-production grid tool (`map_functions.py`,
`map_production.py`).

The program is a Tkinter GUI.  We embed its session state (the mutable
attributes hung off the root window plus the canvas item fills) as an
explicit `GridState`, and each event handler as a pure state transformer.
Canvas items are identified here by their grid position `(col, row)`
(an `Int × Int`): in the source every fixed-border rectangle is registered
in `root.border_positions` with a distinct position, and Tk item ids are
always ≥ 1, so identifying border items with their positions is faithful
(in particular Python's `if previous_id` truthiness test on an item id is
equivalent to `previous_id is not None`).

Fill colours are embedded as the five colour constants the program uses.
-/

/-- The five fill colours the program writes to canvas rectangles:
`FILL_COLOR = "white"`, `GREY_FILL = "#808080"`,
`FIXED_BORDER_FILL = "black"`, `BLUE_TILE_FILL = "#1e90ff"`,
`RED_TILE_FILL = "#ff4040"`. -/
inductive Fill where
  | white
  | grey
  | black
  | blue
  | red
deriving DecidableEq, Repr

/-- What `canvas.find_overlapping` resolves under the pointer for a
cell-paint event: a fixed-border rectangle, an interior cell rectangle,
or nothing. -/
inductive HitItem where
  | border (pos : Int × Int)
  | cell (pos : Int × Int)
deriving DecidableEq, Repr

/-- Session state: the attributes `create_grid_window` stores on the root
window (`grid_cols`, `grid_rows`, `blue_tile_id`, `selecting_blue_tile`,
`red_tile_id`, `selecting_red_tile`, the two select buttons' enabled
state, `status_var`) together with the canvas contents (the interior cell
rectangles and fixed-border rectangles in creation order, and the current
fill of each). -/
structure GridState where
  cols : Nat
  rows : Nat
  cells : List (Int × Int)
  borders : List (Int × Int)
  cellFill : Int × Int → Fill
  slotFill : Int × Int → Fill
  blueTile : Option (Int × Int)
  redTile : Option (Int × Int)
  selectingBlue : Bool
  selectingRed : Bool
  blueButtonEnabled : Bool
  redButtonEnabled : Bool
  status : String

/-- Pointwise update of a fill map (one `canvas.itemconfigure(id, fill=...)`). -/
def setFill (f : Int × Int → Fill) (p : Int × Int) (v : Fill) : Int × Int → Fill :=
  fun q => if q = p then v else f q

/-- Embeds `_positions_adjacent`: true when both positions are present and their
Manhattan distance is exactly 1. -/
def _positions_adjacent (first second : Option (Int × Int)) : Bool :=
  match first, second with
  | some (colA, rowA), some (colB, rowB) =>
      (colA - colB).natAbs + (rowA - rowB).natAbs == 1
  | _, _ => false

/-- Embeds `_apply_blue_tile`: repaint the previous blue slot (if any, and distinct
from the target) back to the border fill, paint the target blue, record it. -/
def _apply_blue_tile (s : GridState) (item : Int × Int) : GridState :=
  let s1 :=
    match s.blueTile with
    | some prev =>
        if prev ≠ item then { s with slotFill := setFill s.slotFill prev Fill.black } else s
    | none => s
  { s1 with slotFill := setFill s1.slotFill item Fill.blue, blueTile := some item }

/-- Embeds `_clear_blue_tile`: repaint the target (the given item, else the current
blue slot) back to the border fill; unset `blue_tile_id` when it was the
target. -/
def _clear_blue_tile (s : GridState) (item : Option (Int × Int)) : GridState :=
  match (match item with | some p => some p | none => s.blueTile) with
  | none => s
  | some target =>
      let s1 := { s with slotFill := setFill s.slotFill target Fill.black }
      if s1.blueTile = some target then { s1 with blueTile := none } else s1

/-- Embeds `_apply_red_tile`: mirror of `_apply_blue_tile` for the red marker. -/
def _apply_red_tile (s : GridState) (item : Int × Int) : GridState :=
  let s1 :=
    match s.redTile with
    | some prev =>
        if prev ≠ item then { s with slotFill := setFill s.slotFill prev Fill.black } else s
    | none => s
  { s1 with slotFill := setFill s1.slotFill item Fill.red, redTile := some item }

/-- Embeds `_clear_red_tile`: mirror of `_clear_blue_tile` for the red marker. -/
def _clear_red_tile (s : GridState) (item : Option (Int × Int)) : GridState :=
  match (match item with | some p => some p | none => s.redTile) with
  | none => s
  | some target =>
      let s1 := { s with slotFill := setFill s.slotFill target Fill.black }
      if s1.redTile = some target then { s1 with redTile := none } else s1

/-- Embeds `_color_cell`: cell paint/erase.  Returns unchanged when either
selection mode is active; fixed-border squares remain unchanged; an
interior cell rectangle under the pointer takes the given fill. -/
def _color_cell (s : GridState) (hit : Option HitItem) (fill : Fill) : GridState :=
  if s.selectingBlue || s.selectingRed then s
  else
    match hit with
    | none => s
    | some (HitItem.border _) => s
    | some (HitItem.cell p) => { s with cellFill := setFill s.cellFill p fill }

/-- Embeds `handle_border_left_click`: commit or reject a marker placement.
`hit` is the fixed-border item `_border_item_from_event` resolved
(`none` when no border item is under the pointer). -/
def handle_border_left_click (s : GridState) (hit : Option (Int × Int)) : GridState :=
  if !s.selectingBlue && !s.selectingRed then s
  else
    match hit with
    | none => s
    | some item =>
        if s.selectingBlue then
          if s.redTile = some item then
            { s with status := "Blue tile location unavailable; overlaps red tile." }
          else if _positions_adjacent (some item) s.redTile then
            { s with status := "Blue tile must not touch the red tile." }
          else
            { _apply_blue_tile s item with
                selectingBlue := false, blueButtonEnabled := true,
                redButtonEnabled := true, status := "Blue tile placed." }
        else if s.selectingRed then
          if s.blueTile = some item then
            { s with status := "Red tile location unavailable; overlaps blue tile." }
          else if _positions_adjacent (some item) s.blueTile then
            { s with status := "Red tile must not touch the blue tile." }
          else
            { _apply_red_tile s item with
                selectingRed := false, redButtonEnabled := true,
                blueButtonEnabled := true, status := "Red tile placed." }
        else s

/-- Embeds `handle_border_right_click`: clear the current marker, cancel the
selection, or do nothing. -/
def handle_border_right_click (s : GridState) (hit : Option (Int × Int)) : GridState :=
  if !s.selectingBlue && !s.selectingRed then s
  else
    match hit with
    | none => s
    | some item =>
        if s.selectingBlue then
          if s.blueTile = some item then
            { _clear_blue_tile s (some item) with
                selectingBlue := false, blueButtonEnabled := true,
                redButtonEnabled := true, status := "Blue tile cleared." }
          else if s.blueTile = none then
            { s with selectingBlue := false, blueButtonEnabled := true,
                     redButtonEnabled := true, status := "Blue tile selection cancelled." }
          else s
        else if s.selectingRed then
          if s.redTile = some item then
            { _clear_red_tile s (some item) with
                selectingRed := false, redButtonEnabled := true,
                blueButtonEnabled := true, status := "Red tile cleared." }
          else if s.redTile = none then
            { s with selectingRed := false, redButtonEnabled := true,
                     blueButtonEnabled := true, status := "Red tile selection cancelled." }
          else s
        else s

/-- Embeds `start_blue_tile_selection`. -/
def start_blue_tile_selection (s : GridState) : GridState :=
  if s.selectingBlue then s
  else if s.selectingRed then
    { s with status := "Finish placing the red tile before choosing the blue tile." }
  else
    { s with selectingBlue := true, blueButtonEnabled := false, redButtonEnabled := false,
             status := "Select a border block for the blue tile. Right-click the current blue tile to clear it." }

/-- Embeds `start_red_tile_selection`. -/
def start_red_tile_selection (s : GridState) : GridState :=
  if s.selectingRed then s
  else if s.selectingBlue then
    { s with status := "Finish placing the blue tile before choosing the red tile." }
  else
    { s with selectingRed := true, redButtonEnabled := false, blueButtonEnabled := false,
             status := "Select a border block for the red tile. Right-click the current red tile to clear it." }

/-- Outcome of pressing the save button. -/
inductive SaveOutcome where
  | blocked
  | snapshot
deriving DecidableEq, Repr

/-- Embeds `guarded_save`: refuse (error box, no snapshot written) unless both the
blue and red tiles are placed; otherwise hand off to
`save_canvas_snapshot`. -/
def guarded_save (s : GridState) : SaveOutcome :=
  if s.blueTile.isNone || s.redTile.isNone then SaveOutcome.blocked
  else SaveOutcome.snapshot

/-- The interior cell rectangles, in the order `create_grid_window` draws
them: `for row in range(rows): for col in range(cols)`. -/
def interiorCells (cols rows : Nat) : List (Int × Int) :=
  (List.range rows).flatMap fun row =>
    (List.range cols).map fun col => (Int.ofNat col, Int.ofNat row)

/-- The fixed-border rectangles, in the order `create_grid_window` draws
them: top and bottom rows over `range(-1, cols + 1)` (corners included),
then left and right columns over `range(rows)` (corners excluded). -/
def borderRing (cols rows : Nat) : List (Int × Int) :=
  ((List.range (cols + 2)).flatMap fun i =>
    [(Int.ofNat i - 1, (-1 : Int)), (Int.ofNat i - 1, Int.ofNat rows)]) ++
  ((List.range rows).flatMap fun r =>
    [((-1 : Int), Int.ofNat r), (Int.ofNat cols, Int.ofNat r)])

/-- Embeds `create_grid_window`: the state of a freshly constructed grid
window.  The source performs no bound check here: every interior cell is
drawn with `FILL_COLOR` (white) and every border slot with
`FIXED_BORDER_FILL` (black), no marker is assigned and no selection mode
is active. -/
def create_grid_window (cols rows : Nat) : GridState :=
  { cols := cols
    rows := rows
    cells := interiorCells cols rows
    borders := borderRing cols rows
    cellFill := fun _ => Fill.white
    slotFill := fun _ => Fill.black
    blueTile := none
    redTile := none
    selectingBlue := false
    selectingRed := false
    blueButtonEnabled := true
    redButtonEnabled := true
    status := "Use the buttons to place blue and red border tiles." }

/-- One UI event, as dispatched by the Tk bindings that
`create_grid_window` installs. -/
inductive Event where
  | borderLeft (hit : Option (Int × Int))
  | borderRight (hit : Option (Int × Int))
  | paint (hit : Option HitItem)
  | erase (hit : Option HitItem)
  | startBlue
  | startRed
  | save
deriving Repr

/-- Dispatch one event to its handler.  Painting uses `GREY_FILL`, erasing
`FILL_COLOR`; `guarded_save` never mutates the session state. -/
def step (s : GridState) : Event → GridState
  | Event.borderLeft hit => handle_border_left_click s hit
  | Event.borderRight hit => handle_border_right_click s hit
  | Event.paint hit => _color_cell s hit Fill.grey
  | Event.erase hit => _color_cell s hit Fill.white
  | Event.startBlue => start_blue_tile_selection s
  | Event.startRed => start_red_tile_selection s
  | Event.save => s

/-- The session state after a list of events on a fresh grid window. -/
def run_session (cols rows : Nat) (events : List Event) : GridState :=
  events.foldl step (create_grid_window cols rows)

/-- Python whitespace stripped by `int(str)`. -/
def isPySpace (c : Char) : Bool :=
  c = ' ' || c = '\t' || c = '\n' || c = '\r' || c = '\x0b' || c = '\x0c'

/-- Digit accumulation for `int(str)`: a single underscore may separate two
digits, and nothing else is accepted. -/
def pyDigitsAux (acc : Nat) : List Char → Option Nat
  | [] => some acc
  | '_' :: c :: rest =>
      if c.isDigit then pyDigitsAux (acc * 10 + (c.toNat - 48)) rest else none
  | '_' :: [] => none
  | c :: rest =>
      if c.isDigit then pyDigitsAux (acc * 10 + (c.toNat - 48)) rest else none

/-- A nonempty digit string (underscore-separated groups allowed) for
`int(str)`. -/
def pyDigits : List Char → Option Nat
  | [] => none
  | c :: rest => if c.isDigit then pyDigitsAux (c.toNat - 48) rest else none

/-- Python's `int(str)` on ASCII input: strip whitespace, optional sign,
then decimal digits; `none` models the `ValueError`. -/
def pyInt (s : String) : Option Int :=
  let cs := (((s.toList).dropWhile isPySpace).reverse.dropWhile isPySpace).reverse
  match cs with
  | '+' :: rest => (pyDigits rest).map Int.ofNat
  | '-' :: rest => (pyDigits rest).map (fun n => -(Int.ofNat n))
  | rest => (pyDigits rest).map Int.ofNat

/-- Embeds `parse_dimension` (inside `prompt_for_grid_dimensions`): parse as an
integer, then reject values outside `[MIN_DIMENSION, MAX_DIMENSION]`
= `[1, 50]`. -/
def parse_dimension (value : String) : Option Int :=
  match pyInt value with
  | none => none
  | some dimension =>
      if dimension < 1 || dimension > 50 then none else some dimension

/-- Embeds `on_confirm` (inside `prompt_for_grid_dimensions`): both fields must
validate, and on success the prompt's result is exactly the parsed pair. -/
def on_confirm (colsRaw rowsRaw : String) : Option (Int × Int) :=
  match parse_dimension colsRaw, parse_dimension rowsRaw with
  | some colsValue, some rowsValue => some (colsValue, rowsValue)
  | _, _ => none

/-- Marker bookkeeping invariant: a border position filled with the blue
(red) marker colour is the recorded `blue_tile_id` (`red_tile_id`).  It
gives invariant I1: at most one slot holds each marker colour. -/
def markerInv (s : GridState) : Prop :=
  (∀ p, s.slotFill p = Fill.blue → s.blueTile = some p) ∧
  (∀ p, s.slotFill p = Fill.red → s.redTile = some p)

/-- Sample session state: a fresh 3 × 2 grid window. -/
def demoGrid : GridState := create_grid_window 3 2

/-- Sample session state: the 3 × 2 grid in blue (player) selection mode. -/
def demoSelBlue : GridState := { demoGrid with selectingBlue := true }

/-- Sample session state: blue selection mode with the red marker already
placed on the top border at `(0, -1)`. -/
def demoSelBlueRed : GridState :=
  { demoGrid with
      selectingBlue := true, redTile := some (0, -1),
      slotFill := setFill demoGrid.slotFill (0, -1) Fill.red }

/-- Sample session state: blue selection mode with the blue marker already
placed on the top border at `(1, -1)`. -/
def demoSelBlueOwn : GridState :=
  { demoGrid with
      selectingBlue := true, blueTile := some (1, -1),
      slotFill := setFill demoGrid.slotFill (1, -1) Fill.blue }

lemma setFill_self (f : Int × Int → Fill) (p : Int × Int) (v : Fill) :
    setFill f p v p = v := by
  simp [setFill]

lemma setFill_other (f : Int × Int → Fill) (p q : Int × Int) (v : Fill) (h : q ≠ p) :
    setFill f p v q = f q := by
  simp [setFill, h]

lemma left_click_blue (s : GridState) (item : Int × Int) (hb : s.selectingBlue = true) :
    handle_border_left_click s (some item) =
      if s.redTile = some item then
        { s with status := "Blue tile location unavailable; overlaps red tile." }
      else if _positions_adjacent (some item) s.redTile then
        { s with status := "Blue tile must not touch the red tile." }
      else
        { _apply_blue_tile s item with
            selectingBlue := false, blueButtonEnabled := true,
            redButtonEnabled := true, status := "Blue tile placed." } := by
  simp [handle_border_left_click, hb]

lemma left_click_red (s : GridState) (item : Int × Int) (hb : s.selectingBlue = false)
    (hr : s.selectingRed = true) :
    handle_border_left_click s (some item) =
      if s.blueTile = some item then
        { s with status := "Red tile location unavailable; overlaps blue tile." }
      else if _positions_adjacent (some item) s.blueTile then
        { s with status := "Red tile must not touch the blue tile." }
      else
        { _apply_red_tile s item with
            selectingRed := false, redButtonEnabled := true,
            blueButtonEnabled := true, status := "Red tile placed." } := by
  simp [handle_border_left_click, hb, hr]

lemma right_click_blue (s : GridState) (item : Int × Int) (hb : s.selectingBlue = true) :
    handle_border_right_click s (some item) =
      if s.blueTile = some item then
        { _clear_blue_tile s (some item) with
            selectingBlue := false, blueButtonEnabled := true,
            redButtonEnabled := true, status := "Blue tile cleared." }
      else if s.blueTile = none then
        { s with selectingBlue := false, blueButtonEnabled := true,
                 redButtonEnabled := true, status := "Blue tile selection cancelled." }
      else s := by
  simp [handle_border_right_click, hb]

lemma right_click_red (s : GridState) (item : Int × Int) (hb : s.selectingBlue = false)
    (hr : s.selectingRed = true) :
    handle_border_right_click s (some item) =
      if s.redTile = some item then
        { _clear_red_tile s (some item) with
            selectingRed := false, redButtonEnabled := true,
            blueButtonEnabled := true, status := "Red tile cleared." }
      else if s.redTile = none then
        { s with selectingRed := false, redButtonEnabled := true,
                 blueButtonEnabled := true, status := "Red tile selection cancelled." }
      else s := by
  simp [handle_border_right_click, hb, hr]

/-- C6: while either selection mode is active, `_color_cell` (the shared
handler for every primary/secondary click and drag on the canvas) returns
the session state unchanged, so no interior cell's Open/Blocked fill can
change. -/
theorem paint_suppressed_while_selecting :
    ∀ (s : GridState) (hit : Option HitItem) (fill : Fill),
      s.selectingBlue = true ∨ s.selectingRed = true →
      _color_cell s hit fill = s := by
  intro s hit fill h
  rcases h with h | h <;> simp [_color_cell, h]

/-- Witness for C6: painting the interior cell `(0, 0)` grey while blue
selection mode is active leaves the sample state untouched. -/
theorem paint_suppressed_while_selecting_witness :
    _color_cell demoSelBlue (some (HitItem.cell (0, 0))) Fill.grey = demoSelBlue :=
  paint_suppressed_while_selecting demoSelBlue (some (HitItem.cell (0, 0))) Fill.grey
    (Or.inl rfl)

/-- C10: with neither selection mode active (the Idle state), both border
click handlers return the session state unchanged: no marker assignment
and no border-slot fill changes. -/
theorem border_clicks_noop_in_idle :
    ∀ (s : GridState) (hit : Option (Int × Int)),
      s.selectingBlue = false → s.selectingRed = false →
      handle_border_left_click s hit = s ∧ handle_border_right_click s hit = s := by
  intro s hit hb hr
  constructor <;> simp [handle_border_left_click, handle_border_right_click, hb, hr]

/-- Witness for C10: clicks on the border slot `(0, -1)` of a fresh 3 × 2
grid (which starts Idle) change nothing. -/
theorem border_clicks_noop_in_idle_witness :
    handle_border_left_click demoGrid (some (0, -1)) = demoGrid ∧
    handle_border_right_click demoGrid (some (0, -1)) = demoGrid :=
  border_clicks_noop_in_idle demoGrid (some (0, -1)) rfl rfl

/-- C8: `guarded_save` refuses the export (no snapshot is attempted) exactly
when the blue or the red marker is unassigned; it proceeds to
`save_canvas_snapshot` exactly when both are assigned. -/
theorem save_blocked_iff_marker_missing :
    ∀ s : GridState,
      (guarded_save s = SaveOutcome.blocked ↔ s.blueTile = none ∨ s.redTile = none) ∧
      (guarded_save s = SaveOutcome.snapshot ↔ s.blueTile ≠ none ∧ s.redTile ≠ none) := by
  intro s
  rcases hb : s.blueTile with _ | p <;> rcases hr : s.redTile with _ | q <;>
    simp [guarded_save, hb, hr]

/-- Witness for C8: a fresh grid has neither marker, so its save attempt is
blocked; with both demo markers assigned the snapshot proceeds. -/
theorem save_blocked_iff_marker_missing_witness :
    guarded_save demoGrid = SaveOutcome.blocked :=
  ((save_blocked_iff_marker_missing demoGrid).1).mpr (Or.inl rfl)

lemma parse_dimension_of_unparseable (v : String) (h : pyInt v = none) :
    parse_dimension v = none := by
  simp [parse_dimension, h]

lemma parse_dimension_of_out_of_range (v : String) (n : Int) (h : pyInt v = some n)
    (hn : n < 1 ∨ 50 < n) : parse_dimension v = none := by
  rcases hn with hn | hn <;> simp [parse_dimension, h, hn]

lemma parse_dimension_of_in_range (v : String) (n : Int) (h : pyInt v = some n)
    (h1 : 1 ≤ n) (h2 : n ≤ 50) : parse_dimension v = some n := by
  simp [parse_dimension, h]
  omega

/-- C9: the dimension validator rejects any string that does not parse as a
Python integer and any integer outside `[1, 50]`; on an integer in
`[1, 50]` it returns exactly that integer, and when both fields are in
range the confirm handler returns exactly that pair. -/
theorem dimension_validator_correct :
    (∀ v : String, pyInt v = none → parse_dimension v = none) ∧
    (∀ (v : String) (n : Int), pyInt v = some n → (n < 1 ∨ 50 < n) →
      parse_dimension v = none) ∧
    (∀ (v : String) (n : Int), pyInt v = some n → 1 ≤ n → n ≤ 50 →
      parse_dimension v = some n) ∧
    (∀ (c r : String) (m n : Int), pyInt c = some m → pyInt r = some n →
      1 ≤ m → m ≤ 50 → 1 ≤ n → n ≤ 50 → on_confirm c r = some (m, n)) := by
  refine ⟨parse_dimension_of_unparseable, parse_dimension_of_out_of_range,
    parse_dimension_of_in_range, ?_⟩
  intro c r m n hc hr hm1 hm2 hn1 hn2
  simp [on_confirm, parse_dimension_of_in_range c m hc hm1 hm2,
    parse_dimension_of_in_range r n hr hn1 hn2]

/-- Witness for C9: a non-numeric string and an out-of-range value are both
rejected, an in-range value round-trips, and the confirm handler returns
the validated pair. -/
theorem dimension_validator_correct_witness :
    parse_dimension "abc" = none ∧ parse_dimension "51" = none ∧
    parse_dimension "  20 " = some 20 ∧ on_confirm "20" "10" = some (20, 10) :=
  ⟨dimension_validator_correct.1 "abc" rfl,
   dimension_validator_correct.2.1 "51" 51 rfl (Or.inr (by norm_num)),
   dimension_validator_correct.2.2.1 "  20 " 20 rfl (by norm_num) (by norm_num),
   dimension_validator_correct.2.2.2 "20" "10" 20 10 rfl rfl (by norm_num) (by norm_num)
     (by norm_num) (by norm_num)⟩

lemma interiorCells_length (cols rows : Nat) :
    (interiorCells cols rows).length = cols * rows := by
  unfold interiorCells
  induction rows with
  | zero => rfl
  | succ n ih =>
      rw [List.range_succ, List.flatMap_append, List.length_append, ih]
      simp only [List.flatMap_cons, List.flatMap_nil, List.append_nil,
        List.length_map, List.length_range]
      ring

lemma borderRing_length (cols rows : Nat) :
    (borderRing cols rows).length = 2 * (cols + 2) + 2 * rows := by
  unfold borderRing
  rw [List.length_append]
  have h1 : ∀ k : Nat,
      ((List.range k).flatMap fun i =>
        [(Int.ofNat i - 1, (-1 : Int)), (Int.ofNat i - 1, Int.ofNat rows)]).length = 2 * k := by
    intro k
    induction k with
    | zero => rfl
    | succ m ih =>
        rw [List.range_succ, List.flatMap_append]
        simp only [List.length_append, ih, List.flatMap_cons, List.flatMap_nil,
          List.append_nil, List.length_cons, List.length_nil]
        ring
  have h2 : ∀ k : Nat,
      ((List.range k).flatMap fun r =>
        [((-1 : Int), Int.ofNat r), (Int.ofNat cols, Int.ofNat r)]).length = 2 * k := by
    intro k
    induction k with
    | zero => rfl
    | succ m ih =>
        rw [List.range_succ, List.flatMap_append]
        simp only [List.length_append, ih, List.flatMap_cons, List.flatMap_nil,
          List.append_nil, List.length_cons, List.length_nil]
        ring
  rw [h1, h2]

lemma mem_borderRing (cols rows : Nat) (a b : Int) :
    (a, b) ∈ borderRing cols rows ↔
      ((b = -1 ∨ b = (rows : Int)) ∧ -1 ≤ a ∧ a ≤ (cols : Int)) ∨
      ((a = -1 ∨ a = (cols : Int)) ∧ 0 ≤ b ∧ b < (rows : Int)) := by
  unfold borderRing
  simp only [List.mem_append, List.mem_flatMap, List.mem_range, List.mem_cons,
    List.not_mem_nil, or_false, Prod.mk.injEq, Int.ofNat_eq_coe]
  constructor
  · rintro (⟨i, hi, h⟩ | ⟨r, hr, h⟩)
    · have hi' : (i : Int) < (cols : Int) + 2 := by exact_mod_cast hi
      have hi0 : (0 : Int) ≤ (i : Int) := Int.ofNat_nonneg i
      omega
    · have hr' : (r : Int) < (rows : Int) := by exact_mod_cast hr
      have hr0 : (0 : Int) ≤ (r : Int) := Int.ofNat_nonneg r
      omega
  · rintro (⟨hb, ha1, ha2⟩ | ⟨ha, hb1, hb2⟩)
    · refine Or.inl ⟨(a + 1).toNat, ?_, ?_⟩
      · omega
      · omega
    · refine Or.inr ⟨b.toNat, ?_, ?_⟩
      · omega
      · omega

/-- C2: for all dimensions in `[1, 50]`, `create_grid_window` constructs a
grid with exactly `cols * rows` interior cells, all filled white (Open),
and exactly `2 * (cols + 2) + 2 * rows` border slots, all filled black
(Plain); the border ring consists of the top and bottom rows over columns
`-1 .. cols` and the left and right columns over interior rows
`0 .. rows - 1`. -/
theorem grid_construction_counts (cols rows : Nat)
    (_hc1 : 1 ≤ cols) (_hc2 : cols ≤ 50) (_hr1 : 1 ≤ rows) (_hr2 : rows ≤ 50) :
    (create_grid_window cols rows).cells.length = cols * rows ∧
    (∀ p ∈ (create_grid_window cols rows).cells,
      (create_grid_window cols rows).cellFill p = Fill.white) ∧
    (create_grid_window cols rows).borders.length = 2 * (cols + 2) + 2 * rows ∧
    (∀ p ∈ (create_grid_window cols rows).borders,
      (create_grid_window cols rows).slotFill p = Fill.black) ∧
    (∀ a b : Int, (a, b) ∈ (create_grid_window cols rows).borders ↔
      ((b = -1 ∨ b = (rows : Int)) ∧ -1 ≤ a ∧ a ≤ (cols : Int)) ∨
      ((a = -1 ∨ a = (cols : Int)) ∧ 0 ≤ b ∧ b < (rows : Int))) :=
  ⟨interiorCells_length cols rows, fun _ _ => rfl, borderRing_length cols rows,
   fun _ _ => rfl, fun a b => mem_borderRing cols rows a b⟩

/-- Witness for C2: the claim instantiated on the 3 × 2 grid. -/
theorem grid_construction_counts_witness :
    (create_grid_window 3 2).cells.length = 3 * 2 ∧
    (∀ p ∈ (create_grid_window 3 2).cells,
      (create_grid_window 3 2).cellFill p = Fill.white) ∧
    (create_grid_window 3 2).borders.length = 2 * (3 + 2) + 2 * 2 ∧
    (∀ p ∈ (create_grid_window 3 2).borders,
      (create_grid_window 3 2).slotFill p = Fill.black) ∧
    (∀ a b : Int, (a, b) ∈ (create_grid_window 3 2).borders ↔
      ((b = -1 ∨ b = ((2 : Nat) : Int)) ∧ -1 ≤ a ∧ a ≤ ((3 : Nat) : Int)) ∨
      ((a = -1 ∨ a = ((3 : Nat) : Int)) ∧ 0 ≤ b ∧ b < ((2 : Nat) : Int))) :=
  grid_construction_counts 3 2 (by norm_num) (by norm_num) (by norm_num) (by norm_num)

/-- C3 counterexample: at `cols = 51`, outside the claimed bound, the
source's grid construction does not fail with `InvalidDimension` — it
builds the full window: 510 interior cells and 126 border slots. -/
theorem create_grid_no_bound_check_cex :
    (create_grid_window 51 10).cells.length = 510 ∧
    (create_grid_window 51 10).borders.length = 126 := by
  constructor
  · have h := interiorCells_length 51 10
    norm_num at h
    exact h
  · have h := borderRing_length 51 10
    norm_num at h
    exact h

/-- C3 amended: `create_grid_window` performs no dimension check and
constructs the full grid for every `cols, rows`; the bound `[1, 50]` is
enforced only upstream, by the startup prompt's `parse_dimension`, which
rejects every integer outside the range, so the application's startup
path never constructs an out-of-range grid. -/
theorem create_grid_unchecked_bounds_upstream :
    (∀ cols rows : Nat,
      (create_grid_window cols rows).cells.length = cols * rows ∧
      (create_grid_window cols rows).borders.length = 2 * (cols + 2) + 2 * rows) ∧
    (∀ (v : String) (n : Int), pyInt v = some n → (n < 1 ∨ 50 < n) →
      parse_dimension v = none) :=
  ⟨fun cols rows => ⟨interiorCells_length cols rows, borderRing_length cols rows⟩,
   parse_dimension_of_out_of_range⟩

/-- Witness for C3's amended statement: the 51-column construction builds
`51 * 10` cells while the validator rejects the string "51". -/
theorem create_grid_unchecked_bounds_upstream_witness :
    (create_grid_window 51 10).cells.length = 51 * 10 ∧ parse_dimension "51" = none :=
  ⟨(create_grid_unchecked_bounds_upstream.1 51 10).1,
   create_grid_unchecked_bounds_upstream.2 "51" 51 rfl (Or.inr (by norm_num))⟩

lemma positions_adjacent_some (p q : Int × Int) :
    _positions_adjacent (some p) (some q) =
      ((p.1 - q.1).natAbs + (p.2 - q.2).natAbs == 1) := by
  cases p
  cases q
  rfl

lemma positions_adjacent_none (p : Int × Int) :
    _positions_adjacent (some p) none = false := rfl

/-- C1: a left click on border slot `item` during selection is rejected as
an overlap exactly when `item` is the slot recorded for the other marker,
rejected as adjacent exactly when the other marker is assigned at
Manhattan distance 1, and otherwise (other marker unassigned or at
distance at least 2) the placement is committed: the slot takes the
marker colour, the marker is recorded there, and the selection mode
ends. -/
theorem marker_placement_rules :
    (∀ (s : GridState) (item : Int × Int), s.selectingBlue = true →
      ((s.redTile = some item →
        handle_border_left_click s (some item) =
          { s with status := "Blue tile location unavailable; overlaps red tile." }) ∧
       (∀ q, s.redTile = some q →
        (item.1 - q.1).natAbs + (item.2 - q.2).natAbs = 1 →
        handle_border_left_click s (some item) =
          { s with status := "Blue tile must not touch the red tile." }) ∧
       ((s.redTile = none ∨ ∃ q, s.redTile = some q ∧
          2 ≤ (item.1 - q.1).natAbs + (item.2 - q.2).natAbs) →
        (handle_border_left_click s (some item)).blueTile = some item ∧
        (handle_border_left_click s (some item)).slotFill item = Fill.blue ∧
        (handle_border_left_click s (some item)).selectingBlue = false ∧
        (handle_border_left_click s (some item)).status = "Blue tile placed."))) ∧
    (∀ (s : GridState) (item : Int × Int), s.selectingBlue = false → s.selectingRed = true →
      ((s.blueTile = some item →
        handle_border_left_click s (some item) =
          { s with status := "Red tile location unavailable; overlaps blue tile." }) ∧
       (∀ q, s.blueTile = some q →
        (item.1 - q.1).natAbs + (item.2 - q.2).natAbs = 1 →
        handle_border_left_click s (some item) =
          { s with status := "Red tile must not touch the blue tile." }) ∧
       ((s.blueTile = none ∨ ∃ q, s.blueTile = some q ∧
          2 ≤ (item.1 - q.1).natAbs + (item.2 - q.2).natAbs) →
        (handle_border_left_click s (some item)).redTile = some item ∧
        (handle_border_left_click s (some item)).slotFill item = Fill.red ∧
        (handle_border_left_click s (some item)).selectingRed = false ∧
        (handle_border_left_click s (some item)).status = "Red tile placed."))) := by
  constructor
  · intro s item hb
    refine ⟨?_, ?_, ?_⟩
    · intro h
      rw [left_click_blue s item hb, if_pos h]
    · intro q hq hdist
      have hne : ¬s.redTile = some item := by
        rw [hq]
        intro hcontra
        have hqi : q = item := Option.some.inj hcontra
        rw [hqi] at hdist
        simp at hdist
      have hadj : _positions_adjacent (some item) s.redTile = true := by
        rw [hq, positions_adjacent_some, beq_iff_eq]
        exact hdist
      rw [left_click_blue s item hb, if_neg hne, if_pos hadj]
    · intro h
      have hne : ¬s.redTile = some item := by
        rcases h with h | ⟨q, hq, hge⟩
        · rw [h]; simp
        · rw [hq]
          intro hcontra
          have hqi : q = item := Option.some.inj hcontra
          rw [hqi] at hge
          simp at hge
      have hadj : ¬_positions_adjacent (some item) s.redTile = true := by
        rcases h with h | ⟨q, hq, hge⟩
        · rw [h, positions_adjacent_none]; simp
        · rw [hq, positions_adjacent_some, beq_iff_eq]
          omega
      rw [left_click_blue s item hb, if_neg hne, if_neg hadj]
      refine ⟨rfl, ?_, rfl, rfl⟩
      show (_apply_blue_tile s item).slotFill item = Fill.blue
      unfold _apply_blue_tile
      simp [setFill]
  · intro s item hb hr
    refine ⟨?_, ?_, ?_⟩
    · intro h
      rw [left_click_red s item hb hr, if_pos h]
    · intro q hq hdist
      have hne : ¬s.blueTile = some item := by
        rw [hq]
        intro hcontra
        have hqi : q = item := Option.some.inj hcontra
        rw [hqi] at hdist
        simp at hdist
      have hadj : _positions_adjacent (some item) s.blueTile = true := by
        rw [hq, positions_adjacent_some, beq_iff_eq]
        exact hdist
      rw [left_click_red s item hb hr, if_neg hne, if_pos hadj]
    · intro h
      have hne : ¬s.blueTile = some item := by
        rcases h with h | ⟨q, hq, hge⟩
        · rw [h]; simp
        · rw [hq]
          intro hcontra
          have hqi : q = item := Option.some.inj hcontra
          rw [hqi] at hge
          simp at hge
      have hadj : ¬_positions_adjacent (some item) s.blueTile = true := by
        rcases h with h | ⟨q, hq, hge⟩
        · rw [h, positions_adjacent_none]; simp
        · rw [hq, positions_adjacent_some, beq_iff_eq]
          omega
      rw [left_click_red s item hb hr, if_neg hne, if_neg hadj]
      refine ⟨rfl, ?_, rfl, rfl⟩
      show (_apply_red_tile s item).slotFill item = Fill.red
      unfold _apply_red_tile
      simp [setFill]

/-- Witness for C1: on the sample state (blue selection, red marker at
`(0, -1)`) clicking `(0, -1)` is the overlap rejection, clicking the
adjacent `(1, -1)` is the adjacency rejection, and clicking `(3, -1)`
(distance 3) commits the blue marker. -/
theorem marker_placement_rules_witness :
    handle_border_left_click demoSelBlueRed (some (0, -1)) =
      { demoSelBlueRed with
          status := "Blue tile location unavailable; overlaps red tile." } ∧
    handle_border_left_click demoSelBlueRed (some (1, -1)) =
      { demoSelBlueRed with status := "Blue tile must not touch the red tile." } ∧
    ((handle_border_left_click demoSelBlueRed (some (3, -1))).blueTile = some (3, -1) ∧
     (handle_border_left_click demoSelBlueRed (some (3, -1))).slotFill (3, -1) = Fill.blue ∧
     (handle_border_left_click demoSelBlueRed (some (3, -1))).selectingBlue = false ∧
     (handle_border_left_click demoSelBlueRed (some (3, -1))).status = "Blue tile placed.") :=
  ⟨(marker_placement_rules.1 demoSelBlueRed (0, -1) rfl).1 rfl,
   (marker_placement_rules.1 demoSelBlueRed (1, -1) rfl).2.1 (0, -1) rfl (by decide),
   (marker_placement_rules.1 demoSelBlueRed (3, -1) rfl).2.2
     (Or.inr ⟨(0, -1), rfl, by decide⟩)⟩

/-- C5: a rejected marker placement (overlap or adjacency) leaves the
selection flags, every cell fill, every border-slot fill and both marker
assignments exactly as they were — only the status message is updated. -/
theorem rejected_placement_frame :
    (∀ (s : GridState) (item : Int × Int), s.selectingBlue = true →
      s.redTile = some item ∨ _positions_adjacent (some item) s.redTile = true →
      ((handle_border_left_click s (some item)).selectingBlue = s.selectingBlue ∧
       (handle_border_left_click s (some item)).selectingRed = s.selectingRed ∧
       (handle_border_left_click s (some item)).cellFill = s.cellFill ∧
       (handle_border_left_click s (some item)).slotFill = s.slotFill ∧
       (handle_border_left_click s (some item)).blueTile = s.blueTile ∧
       (handle_border_left_click s (some item)).redTile = s.redTile)) ∧
    (∀ (s : GridState) (item : Int × Int), s.selectingBlue = false → s.selectingRed = true →
      s.blueTile = some item ∨ _positions_adjacent (some item) s.blueTile = true →
      ((handle_border_left_click s (some item)).selectingBlue = s.selectingBlue ∧
       (handle_border_left_click s (some item)).selectingRed = s.selectingRed ∧
       (handle_border_left_click s (some item)).cellFill = s.cellFill ∧
       (handle_border_left_click s (some item)).slotFill = s.slotFill ∧
       (handle_border_left_click s (some item)).blueTile = s.blueTile ∧
       (handle_border_left_click s (some item)).redTile = s.redTile)) := by
  constructor
  · intro s item hb h
    rw [left_click_blue s item hb]
    by_cases hov : s.redTile = some item
    · rw [if_pos hov]
      exact ⟨rfl, rfl, rfl, rfl, rfl, rfl⟩
    · have hadj : _positions_adjacent (some item) s.redTile = true := by
        rcases h with h | h
        · exact absurd h hov
        · exact h
      rw [if_neg hov, if_pos hadj]
      exact ⟨rfl, rfl, rfl, rfl, rfl, rfl⟩
  · intro s item hb hr h
    rw [left_click_red s item hb hr]
    by_cases hov : s.blueTile = some item
    · rw [if_pos hov]
      exact ⟨rfl, rfl, rfl, rfl, rfl, rfl⟩
    · have hadj : _positions_adjacent (some item) s.blueTile = true := by
        rcases h with h | h
        · exact absurd h hov
        · exact h
      rw [if_neg hov, if_pos hadj]
      exact ⟨rfl, rfl, rfl, rfl, rfl, rfl⟩

/-- Witness for C5: the rejected overlap click at `(0, -1)` on the sample
state changes neither the selection flags nor any fill or marker. -/
theorem rejected_placement_frame_witness :
    (handle_border_left_click demoSelBlueRed (some (0, -1))).selectingBlue =
      demoSelBlueRed.selectingBlue ∧
    (handle_border_left_click demoSelBlueRed (some (0, -1))).selectingRed =
      demoSelBlueRed.selectingRed ∧
    (handle_border_left_click demoSelBlueRed (some (0, -1))).cellFill =
      demoSelBlueRed.cellFill ∧
    (handle_border_left_click demoSelBlueRed (some (0, -1))).slotFill =
      demoSelBlueRed.slotFill ∧
    (handle_border_left_click demoSelBlueRed (some (0, -1))).blueTile =
      demoSelBlueRed.blueTile ∧
    (handle_border_left_click demoSelBlueRed (some (0, -1))).redTile =
      demoSelBlueRed.redTile :=
  rejected_placement_frame.1 demoSelBlueRed (0, -1) rfl (Or.inl rfl)

lemma clear_blue_slotFill (s : GridState) (t p : Int × Int) :
    (_clear_blue_tile s (some t)).slotFill p =
      if p = t then Fill.black else s.slotFill p := by
  unfold _clear_blue_tile
  by_cases h : s.blueTile = some t <;> simp [h, setFill]

lemma clear_blue_blueTile (s : GridState) (t : Int × Int) :
    (_clear_blue_tile s (some t)).blueTile =
      if s.blueTile = some t then none else s.blueTile := by
  unfold _clear_blue_tile
  by_cases h : s.blueTile = some t <;> simp [h]

lemma clear_blue_redTile (s : GridState) (t : Int × Int) :
    (_clear_blue_tile s (some t)).redTile = s.redTile := by
  unfold _clear_blue_tile
  by_cases h : s.blueTile = some t <;> simp [h]

lemma clear_blue_cellFill (s : GridState) (t : Int × Int) :
    (_clear_blue_tile s (some t)).cellFill = s.cellFill := by
  unfold _clear_blue_tile
  by_cases h : s.blueTile = some t <;> simp [h]

lemma clear_blue_selecting (s : GridState) (t : Int × Int) :
    (_clear_blue_tile s (some t)).selectingBlue = s.selectingBlue ∧
    (_clear_blue_tile s (some t)).selectingRed = s.selectingRed := by
  unfold _clear_blue_tile
  by_cases h : s.blueTile = some t <;> simp [h]

lemma clear_red_slotFill (s : GridState) (t p : Int × Int) :
    (_clear_red_tile s (some t)).slotFill p =
      if p = t then Fill.black else s.slotFill p := by
  unfold _clear_red_tile
  by_cases h : s.redTile = some t <;> simp [h, setFill]

lemma clear_red_redTile (s : GridState) (t : Int × Int) :
    (_clear_red_tile s (some t)).redTile =
      if s.redTile = some t then none else s.redTile := by
  unfold _clear_red_tile
  by_cases h : s.redTile = some t <;> simp [h]

lemma clear_red_blueTile (s : GridState) (t : Int × Int) :
    (_clear_red_tile s (some t)).blueTile = s.blueTile := by
  unfold _clear_red_tile
  by_cases h : s.redTile = some t <;> simp [h]

lemma clear_red_cellFill (s : GridState) (t : Int × Int) :
    (_clear_red_tile s (some t)).cellFill = s.cellFill := by
  unfold _clear_red_tile
  by_cases h : s.redTile = some t <;> simp [h]

/-- C7: a secondary click on border slot `item` in blue selection mode
clears the blue marker and ends the selection when `item` is the recorded
blue slot (the slot returns to the plain border fill, the marker is
unset, both selection flags end false, and the red marker and cell fills
are untouched); cancels the selection with no grid mutation when no blue
slot is recorded; and does nothing at all when a different blue slot is
recorded.  The red selection mode behaves symmetrically. -/
theorem secondary_click_semantics :
    (∀ (s : GridState) (item : Int × Int), s.selectingBlue = true → s.selectingRed = false →
      ((s.blueTile = some item →
        ((handle_border_right_click s (some item)).slotFill item = Fill.black ∧
         (handle_border_right_click s (some item)).blueTile = none ∧
         (handle_border_right_click s (some item)).selectingBlue = false ∧
         (handle_border_right_click s (some item)).selectingRed = false ∧
         (handle_border_right_click s (some item)).redTile = s.redTile ∧
         (handle_border_right_click s (some item)).cellFill = s.cellFill)) ∧
       (s.blueTile = none →
        handle_border_right_click s (some item) =
          { s with selectingBlue := false, blueButtonEnabled := true,
                   redButtonEnabled := true, status := "Blue tile selection cancelled." }) ∧
       (∀ q, s.blueTile = some q → q ≠ item →
        handle_border_right_click s (some item) = s))) ∧
    (∀ (s : GridState) (item : Int × Int), s.selectingBlue = false → s.selectingRed = true →
      ((s.redTile = some item →
        ((handle_border_right_click s (some item)).slotFill item = Fill.black ∧
         (handle_border_right_click s (some item)).redTile = none ∧
         (handle_border_right_click s (some item)).selectingRed = false ∧
         (handle_border_right_click s (some item)).selectingBlue = false ∧
         (handle_border_right_click s (some item)).blueTile = s.blueTile ∧
         (handle_border_right_click s (some item)).cellFill = s.cellFill)) ∧
       (s.redTile = none →
        handle_border_right_click s (some item) =
          { s with selectingRed := false, redButtonEnabled := true,
                   blueButtonEnabled := true, status := "Red tile selection cancelled." }) ∧
       (∀ q, s.redTile = some q → q ≠ item →
        handle_border_right_click s (some item) = s))) := by
  constructor
  · intro s item hb hr
    refine ⟨?_, ?_, ?_⟩
    · intro h
      rw [right_click_blue s item hb, if_pos h]
      refine ⟨?_, ?_, rfl, ?_, ?_, ?_⟩
      · show (_clear_blue_tile s (some item)).slotFill item = Fill.black
        rw [clear_blue_slotFill, if_pos rfl]
      · show (_clear_blue_tile s (some item)).blueTile = none
        rw [clear_blue_blueTile, if_pos h]
      · show (_clear_blue_tile s (some item)).selectingRed = false
        rw [(clear_blue_selecting s item).2, hr]
      · show (_clear_blue_tile s (some item)).redTile = s.redTile
        exact clear_blue_redTile s item
      · show (_clear_blue_tile s (some item)).cellFill = s.cellFill
        exact clear_blue_cellFill s item
    · intro h
      have hne : ¬s.blueTile = some item := by rw [h]; simp
      rw [right_click_blue s item hb, if_neg hne, if_pos h]
    · intro q hq hqi
      have hne : ¬s.blueTile = some item := by
        rw [hq]
        intro hcontra
        exact hqi (Option.some.inj hcontra)
      have hnn : ¬s.blueTile = none := by rw [hq]; simp
      rw [right_click_blue s item hb, if_neg hne, if_neg hnn]
  · intro s item hb hr
    refine ⟨?_, ?_, ?_⟩
    · intro h
      rw [right_click_red s item hb hr, if_pos h]
      refine ⟨?_, ?_, rfl, ?_, ?_, ?_⟩
      · show (_clear_red_tile s (some item)).slotFill item = Fill.black
        rw [clear_red_slotFill, if_pos rfl]
      · show (_clear_red_tile s (some item)).redTile = none
        rw [clear_red_redTile, if_pos h]
      · show (_clear_red_tile s (some item)).selectingBlue = false
        unfold _clear_red_tile
        by_cases hc : s.redTile = some item <;> simp [hc, hb]
      · show (_clear_red_tile s (some item)).blueTile = s.blueTile
        exact clear_red_blueTile s item
      · show (_clear_red_tile s (some item)).cellFill = s.cellFill
        exact clear_red_cellFill s item
    · intro h
      have hne : ¬s.redTile = some item := by rw [h]; simp
      rw [right_click_red s item hb hr, if_neg hne, if_pos h]
    · intro q hq hqi
      have hne : ¬s.redTile = some item := by
        rw [hq]
        intro hcontra
        exact hqi (Option.some.inj hcontra)
      have hnn : ¬s.redTile = none := by rw [hq]; simp
      rw [right_click_red s item hb hr, if_neg hne, if_neg hnn]

/-- Witness for C7: on the sample state with the blue marker at `(1, -1)`,
a secondary click there clears it to the plain fill and leaves Idle; with
no blue marker, a secondary click cancels the selection untouched. -/
theorem secondary_click_semantics_witness :
    ((handle_border_right_click demoSelBlueOwn (some (1, -1))).slotFill (1, -1) = Fill.black ∧
     (handle_border_right_click demoSelBlueOwn (some (1, -1))).blueTile = none ∧
     (handle_border_right_click demoSelBlueOwn (some (1, -1))).selectingBlue = false ∧
     (handle_border_right_click demoSelBlueOwn (some (1, -1))).selectingRed = false ∧
     (handle_border_right_click demoSelBlueOwn (some (1, -1))).redTile = demoSelBlueOwn.redTile ∧
     (handle_border_right_click demoSelBlueOwn (some (1, -1))).cellFill = demoSelBlueOwn.cellFill) ∧
    handle_border_right_click demoSelBlue (some (0, -1)) =
      { demoSelBlue with
          selectingBlue := false, blueButtonEnabled := true,
          redButtonEnabled := true, status := "Blue tile selection cancelled." } :=
  ⟨(secondary_click_semantics.1 demoSelBlueOwn (1, -1) rfl rfl).1 rfl,
   (secondary_click_semantics.1 demoSelBlue (0, -1) rfl rfl).2.1 rfl⟩

lemma apply_blue_slotFill (s : GridState) (item p : Int × Int) :
    (_apply_blue_tile s item).slotFill p =
      if p = item then Fill.blue
      else if s.blueTile = some p then Fill.black
      else s.slotFill p := by
  unfold _apply_blue_tile
  cases hbt : s.blueTile with
  | none =>
      simp only [setFill]
      by_cases hpi : p = item <;> simp [hpi]
  | some prev =>
      simp only [ne_eq, setFill]
      by_cases hprev : prev = item <;> by_cases hpi : p = item <;>
        by_cases hpp : p = prev <;>
        simp_all [setFill, eq_comm]

lemma apply_blue_blueTile (s : GridState) (item : Int × Int) :
    (_apply_blue_tile s item).blueTile = some item := rfl

lemma apply_blue_redTile (s : GridState) (item : Int × Int) :
    (_apply_blue_tile s item).redTile = s.redTile := by
  unfold _apply_blue_tile
  cases hbt : s.blueTile with
  | none => rfl
  | some prev => by_cases hprev : prev = item <;> simp [hprev]

lemma apply_red_slotFill (s : GridState) (item p : Int × Int) :
    (_apply_red_tile s item).slotFill p =
      if p = item then Fill.red
      else if s.redTile = some p then Fill.black
      else s.slotFill p := by
  unfold _apply_red_tile
  cases hrt : s.redTile with
  | none =>
      simp only [setFill]
      by_cases hpi : p = item <;> simp [hpi]
  | some prev =>
      simp only [ne_eq, setFill]
      by_cases hprev : prev = item <;> by_cases hpi : p = item <;>
        by_cases hpp : p = prev <;>
        simp_all [setFill, eq_comm]

lemma apply_red_redTile (s : GridState) (item : Int × Int) :
    (_apply_red_tile s item).redTile = some item := rfl

lemma apply_red_blueTile (s : GridState) (item : Int × Int) :
    (_apply_red_tile s item).blueTile = s.blueTile := by
  unfold _apply_red_tile
  cases hrt : s.redTile with
  | none => rfl
  | some prev => by_cases hprev : prev = item <;> simp [hprev]

lemma markerInv_apply_blue (s : GridState) (item : Int × Int) (h : markerInv s) :
    markerInv (_apply_blue_tile s item) := by
  obtain ⟨hblue, hred⟩ := h
  constructor
  · intro p hp
    rw [apply_blue_slotFill] at hp
    rw [apply_blue_blueTile]
    rcases eq_or_ne p item with hpi | hpi
    · rw [hpi]
    · rw [if_neg hpi] at hp
      by_cases hbp : s.blueTile = some p
      · rw [if_pos hbp] at hp
        simp at hp
      · rw [if_neg hbp] at hp
        exact absurd (hblue p hp) hbp
  · intro p hp
    rw [apply_blue_slotFill] at hp
    rw [apply_blue_redTile]
    rcases eq_or_ne p item with hpi | hpi
    · rw [if_pos hpi] at hp
      simp at hp
    · rw [if_neg hpi] at hp
      by_cases hbp : s.blueTile = some p
      · rw [if_pos hbp] at hp
        simp at hp
      · rw [if_neg hbp] at hp
        exact hred p hp

lemma markerInv_apply_red (s : GridState) (item : Int × Int) (h : markerInv s) :
    markerInv (_apply_red_tile s item) := by
  obtain ⟨hblue, hred⟩ := h
  constructor
  · intro p hp
    rw [apply_red_slotFill] at hp
    rw [apply_red_blueTile]
    rcases eq_or_ne p item with hpi | hpi
    · rw [if_pos hpi] at hp
      simp at hp
    · rw [if_neg hpi] at hp
      by_cases hrp : s.redTile = some p
      · rw [if_pos hrp] at hp
        simp at hp
      · rw [if_neg hrp] at hp
        exact hblue p hp
  · intro p hp
    rw [apply_red_slotFill] at hp
    rw [apply_red_redTile]
    rcases eq_or_ne p item with hpi | hpi
    · rw [hpi]
    · rw [if_neg hpi] at hp
      by_cases hrp : s.redTile = some p
      · rw [if_pos hrp] at hp
        simp at hp
      · rw [if_neg hrp] at hp
        exact absurd (hred p hp) hrp

lemma markerInv_clear_blue (s : GridState) (t : Int × Int) (h : markerInv s) :
    markerInv (_clear_blue_tile s (some t)) := by
  obtain ⟨hblue, hred⟩ := h
  constructor
  · intro p hp
    rw [clear_blue_slotFill] at hp
    rw [clear_blue_blueTile]
    rcases eq_or_ne p t with hpt | hpt
    · rw [if_pos hpt] at hp
      simp at hp
    · rw [if_neg hpt] at hp
      have hb := hblue p hp
      by_cases hbt : s.blueTile = some t
      · exfalso
        rw [hbt] at hb
        exact hpt (Option.some.inj hb).symm
      · rw [if_neg hbt]
        exact hb
  · intro p hp
    rw [clear_blue_slotFill] at hp
    rw [clear_blue_redTile]
    rcases eq_or_ne p t with hpt | hpt
    · rw [if_pos hpt] at hp
      simp at hp
    · rw [if_neg hpt] at hp
      exact hred p hp

lemma markerInv_clear_red (s : GridState) (t : Int × Int) (h : markerInv s) :
    markerInv (_clear_red_tile s (some t)) := by
  obtain ⟨hblue, hred⟩ := h
  constructor
  · intro p hp
    rw [clear_red_slotFill] at hp
    rw [clear_red_blueTile]
    rcases eq_or_ne p t with hpt | hpt
    · rw [if_pos hpt] at hp
      simp at hp
    · rw [if_neg hpt] at hp
      exact hblue p hp
  · intro p hp
    rw [clear_red_slotFill] at hp
    rw [clear_red_redTile]
    rcases eq_or_ne p t with hpt | hpt
    · rw [if_pos hpt] at hp
      simp at hp
    · rw [if_neg hpt] at hp
      have hr := hred p hp
      by_cases hrt : s.redTile = some t
      · exfalso
        rw [hrt] at hr
        exact hpt (Option.some.inj hr).symm
      · rw [if_neg hrt]
        exact hr

lemma markerInv_left_click (s : GridState) (hit : Option (Int × Int)) (h : markerInv s) :
    markerInv (handle_border_left_click s hit) := by
  unfold handle_border_left_click
  split
  · exact h
  · split
    · exact h
    · split
      · split
        · exact h
        · split
          · exact h
          · exact markerInv_apply_blue _ _ h
      · split
        · split
          · exact h
          · split
            · exact h
            · exact markerInv_apply_red _ _ h
        · exact h

lemma markerInv_right_click (s : GridState) (hit : Option (Int × Int)) (h : markerInv s) :
    markerInv (handle_border_right_click s hit) := by
  unfold handle_border_right_click
  split
  · exact h
  · split
    · exact h
    · split
      · split
        · exact markerInv_clear_blue _ _ h
        · split
          · exact h
          · exact h
      · split
        · split
          · exact markerInv_clear_red _ _ h
          · split
            · exact h
            · exact h
        · exact h

lemma markerInv_color_cell (s : GridState) (hit : Option HitItem) (fill : Fill)
    (h : markerInv s) : markerInv (_color_cell s hit fill) := by
  unfold _color_cell
  split
  · exact h
  · split
    · exact h
    · exact h
    · exact h

lemma markerInv_step (s : GridState) (e : Event) (h : markerInv s) :
    markerInv (step s e) := by
  cases e with
  | borderLeft hit => exact markerInv_left_click s hit h
  | borderRight hit => exact markerInv_right_click s hit h
  | paint hit => exact markerInv_color_cell s hit Fill.grey h
  | erase hit => exact markerInv_color_cell s hit Fill.white h
  | startBlue =>
      show markerInv (start_blue_tile_selection s)
      unfold start_blue_tile_selection
      split
      · exact h
      · split
        · exact h
        · exact h
  | startRed =>
      show markerInv (start_red_tile_selection s)
      unfold start_red_tile_selection
      split
      · exact h
      · split
        · exact h
        · exact h
  | save => exact h

lemma markerInv_foldl (events : List Event) (s : GridState) (h : markerInv s) :
    markerInv (events.foldl step s) := by
  induction events generalizing s with
  | nil => exact h
  | cons e es ih => exact ih (step s e) (markerInv_step s e h)

lemma markerInv_run (cols rows : Nat) (events : List Event) :
    markerInv (run_session cols rows events) := by
  apply markerInv_foldl
  constructor
  · intro p hp
    simp [create_grid_window] at hp
  · intro p hp
    simp [create_grid_window] at hp

/-- C4: assigning a marker to slot A and then to a distinct slot B leaves
A repainted with the plain border fill and B holding the marker, with
the marker recorded at B; and in every session state reachable from a
fresh grid by any event sequence, at most one border slot carries the
blue marker fill and at most one carries the red marker fill
(invariant I1). -/
theorem marker_reassignment_atomic :
    (∀ (s : GridState) (A B : Int × Int), A ≠ B →
      ((_apply_blue_tile (_apply_blue_tile s A) B).slotFill A = Fill.black ∧
       (_apply_blue_tile (_apply_blue_tile s A) B).slotFill B = Fill.blue ∧
       (_apply_blue_tile (_apply_blue_tile s A) B).blueTile = some B) ∧
      ((_apply_red_tile (_apply_red_tile s A) B).slotFill A = Fill.black ∧
       (_apply_red_tile (_apply_red_tile s A) B).slotFill B = Fill.red ∧
       (_apply_red_tile (_apply_red_tile s A) B).redTile = some B)) ∧
    (∀ (cols rows : Nat) (events : List Event) (p q : Int × Int),
      ((run_session cols rows events).slotFill p = Fill.blue →
       (run_session cols rows events).slotFill q = Fill.blue → p = q) ∧
      ((run_session cols rows events).slotFill p = Fill.red →
       (run_session cols rows events).slotFill q = Fill.red → p = q)) := by
  constructor
  · intro s A B hAB
    constructor
    · refine ⟨?_, ?_, rfl⟩
      · rw [apply_blue_slotFill, if_neg hAB, apply_blue_blueTile, if_pos rfl]
      · rw [apply_blue_slotFill, if_pos rfl]
    · refine ⟨?_, ?_, rfl⟩
      · rw [apply_red_slotFill, if_neg hAB, apply_red_redTile, if_pos rfl]
      · rw [apply_red_slotFill, if_pos rfl]
  · intro cols rows events p q
    obtain ⟨hblue, hred⟩ := markerInv_run cols rows events
    constructor
    · intro hp hq
      exact Option.some.inj ((hblue p hp).symm.trans (hblue q hq))
    · intro hp hq
      exact Option.some.inj ((hred p hp).symm.trans (hred q hq))

/-- Witness for C4: reassigning the blue marker from `(0, -1)` to `(2, -1)`
on the sample grid repaints `(0, -1)` black and records `(2, -1)`. -/
theorem marker_reassignment_atomic_witness :
    (_apply_blue_tile (_apply_blue_tile demoGrid (0, -1)) (2, -1)).slotFill (0, -1) =
      Fill.black ∧
    (_apply_blue_tile (_apply_blue_tile demoGrid (0, -1)) (2, -1)).slotFill (2, -1) =
      Fill.blue ∧
    (_apply_blue_tile (_apply_blue_tile demoGrid (0, -1)) (2, -1)).blueTile = some (2, -1) :=
  (marker_reassignment_atomic.1 demoGrid (0, -1) (2, -1) (by decide)).1
